import Mathlib

/-!
Verification of the GPU resource-pool layer of the faiss-rs repository
(src/gpu.rs). The layer wraps one opaque native handle
(`FaissGpuResources`) and forwards configuration calls to native entry
points. We embed the native layer as an oracle: each native entry point
reports a status code that is an input to the embedded function, and every
native invocation is recorded in an explicit trace, so that claims about
which native calls occur (allocation, release, configuration) and about
handle identity can be stated and settled.
-/

/-- Status code returned by every native entry point (a C int in the
source). Zero means success. -/
abbrev NativeStatus := Int

/-- Modelled from the spec: the error type produced by the `faiss_try!`
macro (defined in the crate outside src/gpu.rs). The spec says every
native status is checked immediately at the call site and converted to a
typed failure; the failure carries the native status. -/
inductive FaissError where
  | native (code : NativeStatus)
  deriving DecidableEq, Repr

/-- Modelled from the spec: the `faiss_try!` macro (defined in the crate
outside src/gpu.rs). It checks the native status at the call site: on
success (status 0) control continues, on any non-zero status the enclosing
function returns early with a typed failure. No error is swallowed or
retried. -/
def faiss_try (st : NativeStatus) : Except FaissError Unit :=
  if st = 0 then Except.ok () else Except.error (FaissError.native st)

/-- Bit pattern of a 32-bit float argument. The source never computes with
the fraction; it only passes the value through to the native entry point,
so we carry it as opaque data. -/
abbrev F32 := Nat

/-- One invocation of a native entry point, with the arguments the source
passes to it. `alloc` is `faiss_StandardGpuResources_new`; `free` is the
native release entry point (which the source never invokes, see
`StandardGpuResources.dropCalls`); the rest are the four configuration
entry points. -/
inductive NativeCall where
  | alloc
  | free (handle : Nat)
  | noTempMemory (handle : Nat)
  | setTempMemory (handle : Nat) (size : Nat)
  | setTempMemoryFraction (handle : Nat) (fraction : F32)
  | setPinnedMemory (handle : Nat) (size : Nat)
  deriving DecidableEq, Repr

/-- Number of allocation calls in a native-call trace. -/
def countAlloc : List NativeCall → Nat
  | [] => 0
  | NativeCall.alloc :: rest => countAlloc rest + 1
  | _ :: rest => countAlloc rest

/-- Number of release calls in a native-call trace. -/
def countFree : List NativeCall → Nat
  | [] => 0
  | NativeCall.free _ :: rest => countFree rest + 1
  | _ :: rest => countFree rest

/-- The owning resource pool (`pub struct StandardGpuResources` in
src/gpu.rs): a single field holding the raw native handle, an
address-sized value. Null is represented by 0. -/
structure StandardGpuResources where
  inner : Nat
  deriving DecidableEq, Repr

/-- Embedding of `StandardGpuResources::new`. The source initialises a
null pointer, invokes `faiss_StandardGpuResources_new(&mut ptr)` once,
checks the status with `faiss_try!`, and on success stores whatever the
native call wrote into `ptr`. Oracle inputs: `st` is the status the native
call reports, `written` is the content of `ptr` after the native call (on
the failure path the source never reads it). Returns the result together
with the trace of native calls made. -/
def StandardGpuResources.new (st : NativeStatus) (written : Nat) :
    Except FaissError StandardGpuResources × List NativeCall :=
  (match faiss_try st with
    | Except.ok _ => Except.ok { inner := written }
    | Except.error e => Except.error e,
   [NativeCall.alloc])

/-- Embedding of `inner_ptr` for the owning pool: returns the stored raw
handle. It reads the field and does nothing else. -/
def StandardGpuResources.inner_ptr (self : StandardGpuResources) : Nat :=
  self.inner

/-- Embedding of `no_temp_memory`: invokes
`faiss_StandardGpuResources_noTempMemory(self.inner)` once, checks the
status with `faiss_try!`, and returns `Ok(())` on success. The struct is
never written, so the resulting state is returned alongside the result and
the trace. -/
def StandardGpuResources.no_temp_memory (self : StandardGpuResources)
    (st : NativeStatus) :
    Except FaissError Unit × StandardGpuResources × List NativeCall :=
  (match faiss_try st with
    | Except.ok _ => Except.ok ()
    | Except.error e => Except.error e,
   self, [NativeCall.noTempMemory self.inner])

/-- Embedding of `set_temp_memory`: invokes
`faiss_StandardGpuResources_setTempMemory(self.inner, size)` once, checks
the status with `faiss_try!`, and returns `Ok(())` on success. -/
def StandardGpuResources.set_temp_memory (self : StandardGpuResources)
    (size : Nat) (st : NativeStatus) :
    Except FaissError Unit × StandardGpuResources × List NativeCall :=
  (match faiss_try st with
    | Except.ok _ => Except.ok ()
    | Except.error e => Except.error e,
   self, [NativeCall.setTempMemory self.inner size])

/-- Embedding of `set_temp_memory_fraction`: invokes
`faiss_StandardGpuResources_setTempMemoryFraction(self.inner, fraction)`
once with the fraction exactly as received, checks the status with
`faiss_try!`, and returns `Ok(())` on success. -/
def StandardGpuResources.set_temp_memory_fraction
    (self : StandardGpuResources) (fraction : F32) (st : NativeStatus) :
    Except FaissError Unit × StandardGpuResources × List NativeCall :=
  (match faiss_try st with
    | Except.ok _ => Except.ok ()
    | Except.error e => Except.error e,
   self, [NativeCall.setTempMemoryFraction self.inner fraction])

/-- Embedding of `set_pinned_memory`: invokes
`faiss_StandardGpuResources_setPinnedMemory(self.inner, size)` once,
checks the status with `faiss_try!`, and returns `Ok(())` on success. -/
def StandardGpuResources.set_pinned_memory (self : StandardGpuResources)
    (size : Nat) (st : NativeStatus) :
    Except FaissError Unit × StandardGpuResources × List NativeCall :=
  (match faiss_try st with
    | Except.ok _ => Except.ok ()
    | Except.error e => Except.error e,
   self, [NativeCall.setPinnedMemory self.inner size])

/-- Native calls performed when a `StandardGpuResources` value goes out of
scope. The source declares no `Drop` implementation for the type and its
only field is a raw pointer, so the drop glue runs no code at all: no
native entry point is invoked on destruction. -/
def StandardGpuResources.dropCalls (_self : StandardGpuResources) :
    List NativeCall :=
  []

/-- One invocation of a configuration mutator together with the status the
native layer reports for it. This lets a whole sequence of configuration
calls, with arbitrary native outcomes, be run against a pool. -/
inductive ConfigOp where
  | noTemp (st : NativeStatus)
  | setTemp (size : Nat) (st : NativeStatus)
  | setFrac (fraction : F32) (st : NativeStatus)
  | setPinned (size : Nat) (st : NativeStatus)

/-- The native status an operation will report, projected out of the
oracle data. -/
def opStatus : ConfigOp → NativeStatus
  | ConfigOp.noTemp st => st
  | ConfigOp.setTemp _ st => st
  | ConfigOp.setFrac _ st => st
  | ConfigOp.setPinned _ st => st

/-- Dispatch one configuration call to the corresponding mutator of the
owning pool. -/
def applyOp (self : StandardGpuResources) (op : ConfigOp) :
    Except FaissError Unit × StandardGpuResources × List NativeCall :=
  match op with
  | ConfigOp.noTemp st => self.no_temp_memory st
  | ConfigOp.setTemp size st => self.set_temp_memory size st
  | ConfigOp.setFrac fraction st => self.set_temp_memory_fraction fraction st
  | ConfigOp.setPinned size st => self.set_pinned_memory size st

/-- Run a sequence of configuration calls against a pool, threading the
state and concatenating the native-call traces. Every call is performed
whether or not earlier ones failed, matching a caller that keeps using the
pool after a configuration error. -/
def runOps (self : StandardGpuResources) (ops : List ConfigOp) :
    StandardGpuResources × List NativeCall :=
  match ops with
  | [] => (self, [])
  | op :: rest =>
      let step := applyOp self op
      let next := runOps step.2.1 rest
      (next.1, step.2.2 ++ next.2)

namespace RefMutStandardGpuResources

/-- Embedding of `inner_ptr` from `impl GpuResources for &mut
StandardGpuResources`: reads the referent field `self.inner` directly. -/
def inner_ptr (self : StandardGpuResources) : Nat :=
  self.inner

/-- Embedding of the adapter `no_temp_memory`: forwards to the referent
via `(**self).no_temp_memory()`. -/
def no_temp_memory (self : StandardGpuResources) (st : NativeStatus) :
    Except FaissError Unit × StandardGpuResources × List NativeCall :=
  StandardGpuResources.no_temp_memory self st

/-- Embedding of the adapter `set_temp_memory`: forwards to the referent
via `(**self).set_temp_memory(size)`. -/
def set_temp_memory (self : StandardGpuResources) (size : Nat)
    (st : NativeStatus) :
    Except FaissError Unit × StandardGpuResources × List NativeCall :=
  StandardGpuResources.set_temp_memory self size st

/-- Embedding of the adapter `set_temp_memory_fraction`: forwards to the
referent via `(**self).set_temp_memory_fraction(fraction)`. -/
def set_temp_memory_fraction (self : StandardGpuResources) (fraction : F32)
    (st : NativeStatus) :
    Except FaissError Unit × StandardGpuResources × List NativeCall :=
  StandardGpuResources.set_temp_memory_fraction self fraction st

/-- Embedding of the adapter `set_pinned_memory`: forwards to the referent
via `(**self).set_pinned_memory(size)`. -/
def set_pinned_memory (self : StandardGpuResources) (size : Nat)
    (st : NativeStatus) :
    Except FaissError Unit × StandardGpuResources × List NativeCall :=
  StandardGpuResources.set_pinned_memory self size st

end RefMutStandardGpuResources

/-- Every single configuration call leaves the struct unchanged, makes
exactly its one native configuration call (no allocation, no release), and
succeeds exactly when the native status is zero. -/
theorem applyOp_frame (self : StandardGpuResources) (op : ConfigOp) :
    (applyOp self op).2.1 = self ∧
    countAlloc (applyOp self op).2.2 = 0 ∧
    countFree (applyOp self op).2.2 = 0 ∧
    (applyOp self op).2.2.length = 1 := by
  cases op with
  | noTemp st =>
      by_cases h : st = 0 <;>
        simp [applyOp, StandardGpuResources.no_temp_memory, faiss_try, h,
          countAlloc, countFree]
  | setTemp size st =>
      by_cases h : st = 0 <;>
        simp [applyOp, StandardGpuResources.set_temp_memory, faiss_try, h,
          countAlloc, countFree]
  | setFrac fraction st =>
      by_cases h : st = 0 <;>
        simp [applyOp, StandardGpuResources.set_temp_memory_fraction,
          faiss_try, h, countAlloc, countFree]
  | setPinned size st =>
      by_cases h : st = 0 <;>
        simp [applyOp, StandardGpuResources.set_pinned_memory, faiss_try, h,
          countAlloc, countFree]

/-- Counting allocation calls distributes over trace concatenation. -/
theorem countAlloc_append (xs ys : List NativeCall) :
    countAlloc (xs ++ ys) = countAlloc xs + countAlloc ys := by
  induction xs with
  | nil => simp [countAlloc]
  | cons x rest ih => cases x <;> simp [countAlloc, ih] <;> omega

/-- The result of any configuration mutator is exactly the status check of
the native status it received: the mutators add no logic of their own
around `faiss_try`. -/
theorem applyOp_result (self : StandardGpuResources) (op : ConfigOp) :
    (applyOp self op).1 = faiss_try (opStatus op) := by
  cases op with
  | noTemp st =>
      cases h : faiss_try st <;>
        simp [applyOp, StandardGpuResources.no_temp_memory, opStatus, h]
  | setTemp size st =>
      cases h : faiss_try st <;>
        simp [applyOp, StandardGpuResources.set_temp_memory, opStatus, h]
  | setFrac fraction st =>
      cases h : faiss_try st <;>
        simp [applyOp, StandardGpuResources.set_temp_memory_fraction,
          opStatus, h]
  | setPinned size st =>
      cases h : faiss_try st <;>
        simp [applyOp, StandardGpuResources.set_pinned_memory, opStatus, h]

/-- C1: the claim says the native release entry point is invoked exactly
once when the owner of a successfully constructed pool is destroyed. The
code disagrees: `new` makes its one allocation call and succeeds, but the
source defines no Drop implementation for `StandardGpuResources`, so
destruction runs no code and performs zero release calls — the native
object is leaked, never released. -/
theorem c1_destruction_performs_no_release :
    (StandardGpuResources.new 0 1).1 = Except.ok { inner := 1 } ∧
    countAlloc (StandardGpuResources.new 0 1).2 = 1 ∧
    StandardGpuResources.dropCalls { inner := 1 } = [] ∧
    countFree (StandardGpuResources.dropCalls { inner := 1 }) = 0 :=
  ⟨rfl, rfl, rfl, rfl⟩

/-- C2: for every pool and every sequence of configuration calls with
arbitrary native outcomes, the stored raw handle reported by `inner_ptr`
is unchanged, and the whole sequence performs no allocation call — no
second native object is ever created. -/
theorem c2_config_never_changes_handle (self : StandardGpuResources)
    (ops : List ConfigOp) :
    (runOps self ops).1.inner_ptr = self.inner_ptr ∧
    countAlloc (runOps self ops).2 = 0 := by
  induction ops generalizing self with
  | nil => exact ⟨rfl, rfl⟩
  | cons op rest ih =>
      have hframe := applyOp_frame self op
      have hrest := ih (applyOp self op).2.1
      rw [hframe.1] at hrest
      show ((runOps (applyOp self op).2.1 rest).1.inner_ptr = self.inner_ptr ∧
        countAlloc ((applyOp self op).2.2 ++
          (runOps (applyOp self op).2.1 rest).2) = 0)
      rw [hframe.1]
      exact ⟨hrest.1, by rw [countAlloc_append, hframe.2.1, hrest.2]⟩

/-- C3: `new` performs exactly one allocation call and no release call; if
the native status is success the result stores exactly the handle the
native call wrote, otherwise the result is the propagated error and no
pool value is produced. -/
theorem c3_new_allocates_exactly_once (st : NativeStatus) (written : Nat) :
    countAlloc (StandardGpuResources.new st written).2 = 1 ∧
    countFree (StandardGpuResources.new st written).2 = 0 ∧
    (StandardGpuResources.new st written).1 =
      (if st = 0 then Except.ok { inner := written }
       else Except.error (FaissError.native st)) := by
  refine ⟨rfl, rfl, ?_⟩
  by_cases h : st = 0 <;> simp [StandardGpuResources.new, faiss_try, h]

/-- C4: whenever `new` returns Ok, the resulting pool stores the handle
the native allocation produced, so under the native contract that a
successful allocation writes a non-null handle, `inner_ptr` of the
constructed pool is non-zero. -/
theorem c4_ok_pool_has_nonnull_handle (st : NativeStatus) (written : Nat)
    (r : StandardGpuResources) (hcontract : written ≠ 0)
    (hok : (StandardGpuResources.new st written).1 = Except.ok r) :
    r.inner_ptr ≠ 0 := by
  by_cases h : st = 0
  · simp [StandardGpuResources.new, faiss_try, h] at hok
    rw [← hok]
    exact hcontract
  · simp [StandardGpuResources.new, faiss_try, h] at hok

/-- Witness for C4 at a concrete successful construction. -/
theorem c4_witness :
    StandardGpuResources.inner_ptr { inner := 1 } ≠ 0 :=
  c4_ok_pool_has_nonnull_handle 0 1 { inner := 1 } (by decide) rfl

/-- C5: `set_temp_memory` performs no size validation of its own — for
every size, including 0, the call returns Ok whenever the native status is
success, so a zero size is never rejected with an error by this layer. -/
theorem c5_zero_size_accepted (self : StandardGpuResources) (size : Nat)
    (st : NativeStatus) (hnative : st = 0) :
    (self.set_temp_memory size st).1 = Except.ok () ∧
    (self.set_temp_memory 0 st).1 = Except.ok () := by
  subst hnative
  exact ⟨rfl, rfl⟩

/-- Witness for C5: a concrete pool accepts a zero size. -/
theorem c5_witness :
    (StandardGpuResources.set_temp_memory { inner := 1 } 0 0).1 =
      Except.ok () :=
  (c5_zero_size_accepted { inner := 1 } 0 0 rfl).2

/-- C6: `set_temp_memory_fraction` passes the fraction bit-for-bit
unmodified to the one native configuration call it makes, performs no
range validation of its own, and its Ok/Err outcome is exactly the
success/failure status that native call reports. -/
theorem c6_fraction_passed_through (self : StandardGpuResources)
    (fraction : F32) (st : NativeStatus) :
    (self.set_temp_memory_fraction fraction st).2.2 =
      [NativeCall.setTempMemoryFraction self.inner fraction] ∧
    ((self.set_temp_memory_fraction fraction st).1 = Except.ok () ↔
      st = 0) ∧
    ((self.set_temp_memory_fraction fraction st).1 =
        Except.error (FaissError.native st) ↔ st ≠ 0) := by
  refine ⟨rfl, ?_, ?_⟩ <;> by_cases h : st = 0 <;>
    simp [StandardGpuResources.set_temp_memory_fraction, faiss_try, h]

/-- C7: the borrowed-reference adapter is behaviourally equal to the
owning implementation: its `inner_ptr` returns exactly the referent pool
handle, and each of the four forwarded mutators produces the same result,
state and native-call trace as the same call made directly on the
owner. -/
theorem c7_adapter_equals_owner (self : StandardGpuResources) (size : Nat)
    (fraction : F32) (st : NativeStatus) :
    RefMutStandardGpuResources.inner_ptr self = self.inner_ptr ∧
    RefMutStandardGpuResources.no_temp_memory self st =
      self.no_temp_memory st ∧
    RefMutStandardGpuResources.set_temp_memory self size st =
      self.set_temp_memory size st ∧
    RefMutStandardGpuResources.set_temp_memory_fraction self fraction st =
      self.set_temp_memory_fraction fraction st ∧
    RefMutStandardGpuResources.set_pinned_memory self size st =
      self.set_pinned_memory size st :=
  ⟨rfl, rfl, rfl, rfl, rfl⟩

/-- C8: every configuration operation checks the native status at its call
site with a single native call (no retry), returns an error exactly when
the status is non-success, and on any outcome the pool state — in
particular its handle — is unchanged and remains usable. -/
theorem c8_error_exactly_on_native_failure (self : StandardGpuResources)
    (op : ConfigOp) :
    ((∃ e, (applyOp self op).1 = Except.error e) ↔ opStatus op ≠ 0) ∧
    (applyOp self op).2.1 = self ∧
    (applyOp self op).2.2.length = 1 := by
  refine ⟨?_, (applyOp_frame self op).1, (applyOp_frame self op).2.2.2⟩
  rw [applyOp_result]
  by_cases h : opStatus op = 0 <;> simp [faiss_try, h]

/-- C10: the constructor and every mutator are total over the whole native
status space: for every status the outcome is either a plain Ok value or
an error carrying that status through the Result channel — no status
leads to a panic or any third outcome. -/
theorem c10_every_status_yields_result (st : NativeStatus) (written : Nat)
    (self : StandardGpuResources) (op : ConfigOp) :
    ((StandardGpuResources.new st written).1 =
        Except.ok { inner := written } ∨
     (StandardGpuResources.new st written).1 =
        Except.error (FaissError.native st)) ∧
    ((applyOp self op).1 = Except.ok () ∨
     (applyOp self op).1 = Except.error (FaissError.native (opStatus op))) := by
  constructor
  · by_cases h : st = 0 <;> simp [StandardGpuResources.new, faiss_try, h]
  · rw [applyOp_result]
    by_cases h : opStatus op = 0 <;> simp [faiss_try, h]
